import Mathlib

/-!
Verification development for the chatbot conversation-persistence engine.

The definitions below are a shallow embedding of the Python sources:
  - main/models/chat.py            (Chat, Message rows)
  - main/db/session.py             (engine / request-scoped AsyncSession)
  - main/db/repositories/base.py   (BaseRepository.create / update / delete)
  - main/db/repositories/chat.py   (ChatRepository, MessageRepository)
  - main/core/transaction_manager.py (TransactionManager, get_transaction_manager)
  - main/services/you_api.py       (YouApiService.get_response)
  - main/services/search_service.py (SearchService.process_search_request)
  - main/services/chat_service.py  (ChatService)

Machine integers do not occur; identifiers and timestamps are modelled as a
single monotone counter (uuid7 primary keys are time-sortable and created_at
and updated_at are server-assigned now(), both strictly monotone per store in
this model, which is the assumption the design itself makes about the store).
-/

deriving instance DecidableEq for Except

/-- A row of the chats table (main/models/chat.py, class Chat).
    id is the uuid7 primary key, created_at and updated_at the
    server-assigned timestamps; all are drawn from the store counter. -/
structure Chat where
  id : Nat
  user_id : String
  chat_title : String
  created_at : Nat
  updated_at : Nat
deriving DecidableEq, Repr

/-- A row of the messages table (main/models/chat.py, class Message). -/
structure Message where
  id : Nat
  chat_id : Nat
  role : String
  content : String
  created_at : Nat
deriving DecidableEq, Repr

/-- The durable relational store: the two tables plus the monotone counter
    used for fresh primary keys and server-side timestamps. Rows are kept in
    insertion order. -/
structure DB where
  chats : List Chat
  msgs : List Message
  tick : Nat
deriving DecidableEq, Repr

/-- Every identifier and timestamp already present in the store is below the
    counter, so a freshly drawn value collides with nothing. -/
def DB.wf (d : DB) : Prop :=
  (∀ c ∈ d.chats, c.id < d.tick) ∧
  (∀ m ∈ d.msgs, m.id < d.tick ∧ m.chat_id < d.tick ∧ m.created_at < d.tick)

instance (d : DB) : Decidable d.wf := by
  unfold DB.wf; infer_instance

/-- The no-orphan invariant: every message row points at an existing chat row. -/
def DB.orphanFree (d : DB) : Prop :=
  ∀ m ∈ d.msgs, ∃ c ∈ d.chats, c.id = m.chat_id

instance (d : DB) : Decidable d.orphanFree := by
  unfold DB.orphanFree; infer_instance

/-- Pure part of the (user_id, chat_title) lookup: SELECT ... WHERE user_id
    AND chat_title, then .first() (chat.py, get_by_user_and_title). -/
def DB.findChat (d : DB) (u t : String) : Option Chat :=
  (d.chats.filter (fun c => c.user_id == u && c.chat_title == t)).head?

/-- INSERT INTO chats: the new row takes its id and both timestamps from the
    store counter (uuid7 default and server_default=func.now()). -/
def DB.insertChat (d : DB) (u t : String) : Chat × DB :=
  let c : Chat := { id := d.tick, user_id := u, chat_title := t,
                    created_at := d.tick, updated_at := d.tick }
  (c, { chats := d.chats ++ [c], msgs := d.msgs, tick := d.tick + 1 })

/-- INSERT INTO messages. -/
def DB.insertMessage (d : DB) (cid : Nat) (role content : String) : Message × DB :=
  let m : Message := { id := d.tick, chat_id := cid, role := role,
                       content := content, created_at := d.tick }
  (m, { chats := d.chats, msgs := d.msgs ++ [m], tick := d.tick + 1 })

/-- An AsyncSession (main/db/session.py): the durable store it is connected
    to, plus the working image of an open transaction when one is active.
    Statements target the working image; only commit makes it durable. -/
structure Session where
  committed : DB
  txn : Option DB
deriving DecidableEq, Repr

/-- session.in_transaction() -/
def Session.inTransaction (s : Session) : Bool := s.txn.isSome

/-- The store image statements run against. -/
def Session.working (s : Session) : DB := s.txn.getD s.committed

/-- SQLAlchemy autobegin: the first piece of work on a session (execute, add)
    opens a transaction if none is active; also models session.begin(). -/
def Session.begin (s : Session) : Session := { s with txn := some s.working }

/-- session.flush() of a staged statement: applies it to the transaction
    image without making it durable. -/
def Session.flushWith (s : Session) (f : DB → DB) : Session :=
  { s with txn := some (f s.working) }

/-- session.commit(): the working image becomes durable, the transaction ends. -/
def Session.commit (s : Session) : Session :=
  { committed := s.working, txn := none }

/-- session.rollback(): the transaction image is discarded. -/
def Session.rollback (s : Session) : Session := { s with txn := none }

/-- A request-scoped session as produced by get_db (main/db/session.py):
    fresh, no transaction open yet. -/
def freshSession (db : DB) : Session := { committed := db, txn := none }

/-- The errors the embedded code can raise.
    httpError models fastapi.HTTPException (status_code, detail);
    baseInternal models BaseInternalException (main/core/exceptions.py);
    generic models a plain Exception(message);
    typeError and attributeNone model the interpreter-raised TypeError for an
    unexpected keyword argument and AttributeError on None. -/
inductive Err where
  | httpError (status_code : Nat) (detail : String)
  | baseInternal (message : String) (status_code : Nat)
  | generic (message : String)
  | typeError (message : String)
  | attributeNone (message : String)
deriving DecidableEq, Repr

/-- Python str(e) for each error. str of an HTTPException is
    "status_code: detail". BaseInternalException.__init__ stores its data on
    attributes and is constructed with keyword arguments only, so the
    exception args tuple is empty and str(e) is the empty string. -/
def Err.str : Err → String
  | .httpError code detail => toString code ++ ": " ++ detail
  | .baseInternal _ _ => ""
  | .generic m => m
  | .typeError m => m
  | .attributeNone m => m

/-- Schema ChatCreate (main/schemas/chat.py). -/
structure ChatCreate where
  user_id : String
  chat_title : String
deriving DecidableEq, Repr

/-- Schema MessageCreate (main/schemas/chat.py). -/
structure MessageCreate where
  chat_id : Nat
  role : String
  content : String
deriving DecidableEq, Repr

/-- The JSON body of a successful You.com response, abstracted to the only
    field the engine reads: api_response.get("answer", "No response"). -/
structure ApiBody where
  answer : Option String
deriving DecidableEq, Repr

/-- Outcome of the network interaction inside get_response: either the POST
    raises httpx.RequestError, or a response arrives with a status code,
    body text and parsed JSON. -/
inductive NetOutcome where
  | transportError (msg : String)
  | response (status_code : Nat) (text : String) (body : ApiBody)
deriving DecidableEq, Repr

/-- Environment of one external call: the YOU_API_KEY value (None when the
    variable is unset) and what the network does. -/
structure ApiEnv where
  apiKey : Option String
  net : NetOutcome
deriving DecidableEq, Repr

/-- YouApiService.get_response (main/services/you_api.py, lines 29-79).
    The conversation history is sent but does not influence the classified
    outcome; the service is opaque. -/
def YouApiService.get_response (apiKey : Option String) (net : NetOutcome)
    (_messages : List (String × String)) : Except Err ApiBody :=
  match apiKey with
  | none => .error (.httpError 500 "YOU_API_KEY environment variable not set")
  | some _ =>
    match net with
    | .transportError msg =>
        .error (.httpError 503 ("Service unavailable: " ++ msg))
    | .response status_code text body =>
        if status_code != 200 then
          .error (.httpError status_code
            ("You.com API error: " ++ toString status_code ++ " - " ++ text))
        else
          .ok body

/-- BaseRepository.create specialised to the Chat model
    (main/db/repositories/base.py, lines 75-118). session.add stages the
    INSERT and autobegins; if the flush or commit of the INSERT fails
    (injectFailure), the except branch rolls the session back and raises
    BaseInternalException; otherwise the standalone branch commits and the
    in-transaction branch only flushes. -/
def ChatRepository.create (s : Session) (obj_in : ChatCreate)
    (injectFailure : Bool) : Except Err Chat × Session :=
  let s1 := s.begin
  if injectFailure then
    (.error (.baseInternal "Error creating Chat" 500), s1.rollback)
  else if s1.inTransaction = false then
    let (c, d) := s1.working.insertChat obj_in.user_id obj_in.chat_title
    (.ok c, { committed := d, txn := none })
  else
    let (c, d) := s1.working.insertChat obj_in.user_id obj_in.chat_title
    (.ok c, { s1 with txn := some d })

/-- BaseRepository.create specialised to the Message model. -/
def MessageRepository.create (s : Session) (obj_in : MessageCreate)
    (injectFailure : Bool) : Except Err Message × Session :=
  let s1 := s.begin
  if injectFailure then
    (.error (.baseInternal "Error creating Message" 500), s1.rollback)
  else if s1.inTransaction = false then
    let (m, d) := s1.working.insertMessage obj_in.chat_id obj_in.role obj_in.content
    (.ok m, { committed := d, txn := none })
  else
    let (m, d) := s1.working.insertMessage obj_in.chat_id obj_in.role obj_in.content
    (.ok m, { s1 with txn := some d })

/-- BaseRepository.update specialised to the Chat model with a ChatUpdate
    carrying only chat_title (base.py, lines 120-173): only title and the
    store-refreshed updated_at change; flush inside a transaction, commit
    standalone; the except branch rolls back and raises. -/
def ChatRepository.update (s : Session) (db_obj : Chat) (new_title : String)
    (injectFailure : Bool) : Except Err Chat × Session :=
  let s1 := s.begin
  if injectFailure then
    (.error (.baseInternal "Error updating Chat" 500), s1.rollback)
  else
    let updated : Chat :=
      { db_obj with
          chat_title := new_title,
          updated_at := s1.working.tick }
    let d : DB := { s1.working with
      chats := s1.working.chats.map (fun c => if c.id == db_obj.id then updated else c),
      tick := s1.working.tick + 1 }
    if s1.inTransaction = false then (.ok updated, { committed := d, txn := none })
    else (.ok updated, { s1 with txn := some d })

/-- BaseRepository.delete specialised to the Chat model (base.py, lines
    175-202): DELETE by id, flush or commit, rowcount > 0 as the result;
    the except branch rolls back and raises. -/
def ChatRepository.delete (s : Session) (id : Nat)
    (injectFailure : Bool) : Except Err Bool × Session :=
  let s1 := s.begin
  if injectFailure then
    (.error (.baseInternal "Error deleting Chat" 500), s1.rollback)
  else
    let deleted := s1.working.chats.any (fun c => c.id == id)
    let d : DB := { s1.working with
      chats := s1.working.chats.filter (fun c => !(c.id == id)) }
    if s1.inTransaction = false then (.ok deleted, { committed := d, txn := none })
    else (.ok deleted, { s1 with txn := some d })

/-- ChatRepository.get_by_user_and_title (main/db/repositories/chat.py,
    lines 82-104): a read on the session (autobegins), returning the first
    matching row or none. -/
def ChatRepository.get_by_user_and_title (s : Session) (user_id chat_title : String) :
    Option Chat × Session :=
  let s1 := s.begin
  (s1.working.findChat user_id chat_title, s1)

/-- Declared parameter names of get_by_user_and_title besides self
    (chat.py, line 82): the method accepts no session keyword. -/
def ChatRepository.get_by_user_and_title_params : List String :=
  ["user_id", "chat_title"]

/-- ChatRepository.get_all_by_user (chat.py, lines 105-123). -/
def ChatRepository.get_all_by_user (s : Session) (user_id : String) :
    List Chat × Session :=
  let s1 := s.begin
  (s1.working.chats.filter (fun c => c.user_id == user_id), s1)

/-- Stable insertion of a message into a list sorted ascending by created_at. -/
def insertByCreated (m : Message) : List Message → List Message
  | [] => [m]
  | x :: xs =>
    if m.created_at ≤ x.created_at then m :: x :: xs
    else x :: insertByCreated m xs

/-- ORDER BY created_at ascending, as a stable executable sort. -/
def orderByCreated : List Message → List Message
  | [] => []
  | x :: xs => insertByCreated x (orderByCreated xs)

/-- MessageRepository.get_by_chat (chat.py, lines 141-159): all messages of
    the chat ordered by created_at ascending. -/
def MessageRepository.get_by_chat (s : Session) (chat_id : Nat) :
    List Message × Session :=
  let s1 := s.begin
  (orderByCreated (s1.working.msgs.filter (fun m => m.chat_id == chat_id)), s1)

/-- ChatRepository.delete_chat_with_messages (chat.py, lines 39-80).
    db_session is the supplied session when one was passed, the fallback
    self.db otherwise; externalSession records which case holds. If the
    session is not already in a transaction the method itself begins one.
    The two raw DELETE statements run in order (messages first); an injected
    failure of the second one takes the except branch, which rolls back only
    the fallback session and raises BaseInternalException. Commit happens
    only when no session was supplied. -/
def ChatRepository.delete_chat_with_messages (db_session : Session)
    (externalSession : Bool) (chat_id : Nat) (injectFailure : Bool) :
    Except Err Bool × Session :=
  let s1 := if db_session.inTransaction then db_session else db_session.begin
  let s2 := s1.flushWith (fun d =>
    { d with msgs := d.msgs.filter (fun m => !(m.chat_id == chat_id)) })
  if injectFailure then
    let sErr := if externalSession then s2 else s2.rollback
    (.error (.baseInternal "Error deleting chat and its messages" 500), sErr)
  else
    let s3 := s2.flushWith (fun d =>
      { d with chats := d.chats.filter (fun c => !(c.id == chat_id)) })
    if externalSession then (.ok true, s3) else (.ok true, s3.commit)

/-- An operation handed to the transaction coordinator: it receives the
    shared session and either returns a result or raises, leaving the
    session in some state. -/
def Op (α : Type) : Type := Session → Except Err α × Session

/-- The loop body of TransactionManager.execute_in_transaction
    (main/core/transaction_manager.py, lines 41-52): run the operations in
    order, collecting results; the first raise triggers session.rollback()
    and re-raises the original error. -/
def runOps {α : Type} : List (Op α) → Session → List α →
    Except Err (List α) × Session
  | [], s, acc => (.ok acc.reverse, s)
  | op :: rest, s, acc =>
    match op s with
    | (.ok a, s1) => runOps rest s1 (a :: acc)
    | (.error e, s1) => (.error e, s1.rollback)

/-- TransactionManager.execute_in_transaction (transaction_manager.py,
    lines 22-52). engine.begin() opens a connection-bound transaction and a
    session on it (session.begin()); on clean exit the context manager
    commits the connection once, making the flushed statements durable; on
    an exception it rolls the connection back, so the durable store is
    unchanged, and the original error propagates unchanged. -/
def TransactionManager.execute_in_transaction {α : Type} (dbState : DB)
    (operations : List (Op α)) : Except Err (List α) × DB :=
  let s0 : Session := { committed := dbState, txn := some dbState }
  match runOps operations s0 [] with
  | (.ok results, s) => (.ok results, s.working)
  | (.error e, _) => (.error e, dbState)

/-- Specification-side sequential interpreter used to state the coordinator
    contract: the ordered list of each result when every operation
    succeeds, none when any operation raises. -/
def allOk {α : Type} : List (Op α) → Session → Option (List α × Session)
  | [], s => some ([], s)
  | op :: rest, s =>
    match op s with
    | (.ok a, s1) => (allOk rest s1).map (fun p => (a :: p.1, p.2))
    | (.error _, _) => none

/-- The AsyncEngine handle (opaque beyond identity). -/
structure AsyncEngine where
  id : Nat
deriving DecidableEq, Repr

/-- The TransactionManager object: stateless beyond its engine reference. -/
structure TransactionManager where
  engine : AsyncEngine
deriving DecidableEq, Repr

/-- get_transaction_manager (transaction_manager.py, lines 54-62), with the
    module-global singleton made explicit: given the current global and the
    engine argument (defaulting to None), it returns the value the call
    returns together with the new global. -/
def get_transaction_manager (globalTM : Option TransactionManager)
    (engine : Option AsyncEngine) :
    Option TransactionManager × Option TransactionManager :=
  match globalTM, engine with
  | none, some e => (some { engine := e }, some { engine := e })
  | g, _ => (g, g)

/-- Fault-injection switches for the three write-phase inserts of
    process_search_request: chat creation, user message, assistant message. -/
structure WriteInj where
  failChat : Bool
  failUser : Bool
  failAssistant : Bool
deriving DecidableEq, Repr

/-- No injected write failures. -/
def WriteInj.none : WriteInj :=
  { failChat := false, failUser := false, failAssistant := false }

/-- The prefix every error leaving process_search_request carries: the outer
    except clause re-raises Exception(f"Failed to process search request:
    str(e)") (search_service.py, line 114). -/
def wrapMsg : String := "Failed to process search request: "

/-- Steps of the write phase of process_search_request that insert the user
    and then the assistant message (search_service.py, lines 91-110). -/
def SearchService.writeMsgs (inj : WriteInj) (s : Session) (chat_id : Nat)
    (question bot_response : String) : Except Err Message × Session :=
  match MessageRepository.create s
      { chat_id := chat_id, role := "user", content := question } inj.failUser with
  | (.error e, s1) => (.error e, s1)
  | (.ok _user_msg, s1) =>
    match MessageRepository.create s1
        { chat_id := chat_id, role := "assistant", content := bot_response }
        inj.failAssistant with
    | (.error e, s2) => (.error e, s2)
    | (.ok assistant_msg, s2) => (.ok assistant_msg, s2)

/-- Step 4 of process_search_request (search_service.py, lines 78-110):
    create the chat first when the read phase found none (the id is
    populated by the flush inside create, so the explicit flush guarded by
    getattr(chat, id, None) is a no-op here), then insert both messages. -/
def SearchService.writePhase (inj : WriteInj) (s : Session)
    (chatOpt : Option Chat) (user_id chat_title question bot_response : String) :
    Except Err Message × Session :=
  match chatOpt with
  | none =>
    match ChatRepository.create s
        { user_id := user_id, chat_title := chat_title } inj.failChat with
    | (.error e, s1) => (.error e, s1)
    | (.ok chat, s1) => SearchService.writeMsgs inj s1 chat.id question bot_response
  | some chat => SearchService.writeMsgs inj s chat.id question bot_response

/-- SearchService.process_search_request (search_service.py, lines 35-114).
    Step 1 reads the chat by (user_id, chat_title); step 2 loads the prior
    messages as role and content pairs and appends the question; step 3 calls
    the external API (any failure is re-raised by the inner except clause);
    step 4 runs the writes on the same request session. Every raised error is
    wrapped by the outer except clause into a plain Exception carrying
    wrapMsg followed by str of the original error. -/
def SearchService.process_search_request (env : ApiEnv) (inj : WriteInj)
    (s : Session) (user_id chat_title question : String) :
    Except Err Message × Session :=
  let lookup := ChatRepository.get_by_user_and_title s user_id chat_title
  let chatOpt := lookup.1
  let s1 := lookup.2
  let hist : List (String × String) × Session :=
    match chatOpt with
    | some chat =>
      let r := MessageRepository.get_by_chat s1 chat.id
      (r.1.map (fun m => (m.role, m.content)), r.2)
    | none => ([], s1)
  let messages := hist.1 ++ [("user", question)]
  let s2 := hist.2
  match YouApiService.get_response env.apiKey env.net messages with
  | .error e => (.error (.generic (wrapMsg ++ e.str)), s2)
  | .ok api_response =>
    let bot_response := api_response.answer.getD "No response"
    match SearchService.writePhase inj s2 chatOpt user_id chat_title question
        bot_response with
    | (.error e, s3) => (.error (.generic (wrapMsg ++ e.str)), s3)
    | (.ok assistant_msg, s3) => (.ok assistant_msg, s3)

/-- One ask-question request at the durable-store granularity: the route
    (main/api/routes/search.py) runs process_search_request on a fresh
    request-scoped session; at request teardown the session override used by
    the test suite (src/tests/test_api_endpoints.py, _get_test_db) commits
    the session after a successful request and rolls it back when the
    request raised. The production get_db (main/db/session.py) only closes
    the session, and the application wiring module main/app.py that the
    tests import is not in the tree, so the commit-on-success request
    boundary is taken from the test harness. -/
def askRequest (env : ApiEnv) (inj : WriteInj) (db : DB)
    (user_id chat_title question : String) : Except Err Message × DB :=
  match SearchService.process_search_request env inj (freshSession db)
      user_id chat_title question with
  | (.ok m, s) => (.ok m, s.commit.committed)
  | (.error e, s) => (.error e, s.rollback.committed)

/-- n strictly sequential ask-question calls for one (owner, title) pair,
    call j asking question qs j; each call runs on its own request session
    over the store left by the previous one. -/
def askSeq (env : ApiEnv) (user_id chat_title : String) (qs : Nat → String) :
    Nat → DB → DB
  | 0, db => db
  | n + 1, db =>
    (askRequest env WriteInj.none (askSeq env user_id chat_title qs n db)
      user_id chat_title (qs n)).2

/-- Projection of a chat together with its messages, as assembled by
    ChatService (main/services/chat_service.py). -/
structure ChatView where
  id : Nat
  user_id : String
  chat_title : String
  created_at : Nat
  updated_at : Nat
  messages : List Message
deriving DecidableEq, Repr

/-- The success or failure report returned by ChatService.delete_chat. -/
structure DeleteReport where
  success : Bool
  message : String
deriving DecidableEq, Repr

/-- The TypeError message for the unexpected session keyword. -/
def kwErrMsg : String :=
  "get_by_user_and_title got an unexpected keyword argument session"

/-- The AttributeError message for invoking execute_in_transaction on None. -/
def attrErrMsg : String :=
  "NoneType object has no attribute execute_in_transaction"

/-- The call ChatService.update_chat_title makes on the repository
    (chat_service.py, line 107): get_by_user_and_title with an extra
    session keyword argument. The target signature (chat.py, line 82)
    declares only user_id and chat_title, so the Python call protocol
    raises TypeError before the method body runs; were the keyword
    accepted, the call would be the ordinary lookup. -/
def ChatRepository.get_by_user_and_title_sessionKw (s : Session)
    (user_id chat_title : String) : Except Err (Option Chat) × Session :=
  if ChatRepository.get_by_user_and_title_params.contains "session" then
    let r := ChatRepository.get_by_user_and_title s user_id chat_title
    (.ok r.1, r.2)
  else
    (.error (.typeError kwErrMsg), s)

/-- ChatService.__init__ (chat_service.py, lines 23-27): the service stores
    whatever get_transaction_manager() returns, called without an engine;
    construction itself cannot fail. The stored field is returned. -/
def ChatService.init (globalTM : Option TransactionManager) :
    Option TransactionManager :=
  (get_transaction_manager globalTM none).1

/-- ChatService.update_chat_title (chat_service.py, lines 86-124). The
    _do_update closure looks the chat up through the session keyword call,
    returns None when absent, otherwise updates the title and loads the
    messages through the services own request session self.db (not the
    transaction session) before building the projection. The closure list is
    handed to self.transaction_manager.execute_in_transaction; when the
    manager is None that attribute access raises AttributeError. -/
def ChatService.update_chat_title (tm : Option TransactionManager) (db : DB)
    (user_id chat_title new_title : String) :
    Except Err (Option ChatView) × DB :=
  let selfDb := freshSession db
  let do_update : Op (Option ChatView) := fun session =>
    match ChatRepository.get_by_user_and_title_sessionKw session user_id chat_title with
    | (.error e, s) => (.error e, s)
    | (.ok Option.none, s) => (.ok Option.none, s)
    | (.ok (some chat), s) =>
      match ChatRepository.update s chat new_title false with
      | (.error e, s1) => (.error e, s1)
      | (.ok updated_chat, s1) =>
        let msgs := (MessageRepository.get_by_chat selfDb chat.id).1
        (.ok (some { id := updated_chat.id, user_id := updated_chat.user_id,
                     chat_title := updated_chat.chat_title,
                     created_at := updated_chat.created_at,
                     updated_at := updated_chat.updated_at,
                     messages := msgs }), s1)
  match tm with
  | Option.none => (.error (.attributeNone attrErrMsg), db)
  | some _ =>
    match TransactionManager.execute_in_transaction db [do_update] with
    | (.ok results, db1) => (.ok (results.getD 0 Option.none), db1)
    | (.error e, db1) => (.error e, db1)

/-- ChatService.delete_chat (chat_service.py, lines 126-160): read the chat
    outside any transaction; report not-found when absent; otherwise run the
    atomic delete through the transaction manager (AttributeError when the
    manager is None) and translate results[0] into a success or failure
    report. -/
def ChatService.delete_chat (tm : Option TransactionManager) (db : DB)
    (user_id chat_title : String) (injectFailure : Bool) :
    Except Err (Option DeleteReport) × DB :=
  let lookup := ChatRepository.get_by_user_and_title (freshSession db) user_id chat_title
  match lookup.1 with
  | Option.none => (.ok Option.none, db)
  | some chat =>
    match tm with
    | Option.none => (.error (.attributeNone attrErrMsg), db)
    | some _ =>
      let op : Op Bool := fun session =>
        ChatRepository.delete_chat_with_messages session true chat.id injectFailure
      match TransactionManager.execute_in_transaction db [op] with
      | (.ok results, db1) =>
        if results.getD 0 false then
          (.ok (some { success := true,
                       message := "Chat " ++ chat_title ++ " for user " ++
                         user_id ++ " has been successfully deleted" }), db1)
        else
          (.ok (some { success := false,
                       message := "Failed to delete chat " ++ chat_title ++
                         " for user " ++ user_id }), db1)
      | (.error e, db1) => (.error e, db1)

/-- The chat row that the write phase creates for a previously unused
    (owner, title) pair: all server-assigned fields come from the counter. -/
def chatRowFor (db : DB) (u t : String) : Chat :=
  { id := db.tick, user_id := u, chat_title := t,
    created_at := db.tick, updated_at := db.tick }

/-- Number of chat rows stored for one (owner, title) pair. -/
def DB.countChatsFor (d : DB) (u t : String) : Nat :=
  (d.chats.filter (fun c => c.user_id == u && c.chat_title == t)).length

/-- Effect of the two raw DELETE statements of delete_chat_with_messages on
    a store image: the messages of the chat and then the chat row itself. -/
def DB.deleteChatCascade (d : DB) (cid : Nat) : DB :=
  { chats := d.chats.filter (fun c => !(c.id == cid)),
    msgs := d.msgs.filter (fun m => !(m.chat_id == cid)),
    tick := d.tick }

/-- The transcript role pattern of n question-answering calls. -/
def roleAlternation : Nat → List String
  | 0 => []
  | n + 1 => "user" :: "assistant" :: roleAlternation n

/-- The message rows that n successful sequential calls against chat cid
    append, when the store counter stood at base + 1 as the first of them
    was inserted: call j contributes its user row at time base + 2*j + 1 and
    its assistant row at time base + 2*j + 2. -/
def expectedMsgs (cid : Nat) (qs : Nat → String) (ans : String) (base : Nat) :
    Nat → List Message
  | 0 => []
  | n + 1 => expectedMsgs cid qs ans base n ++
      [ { id := base + 2*n + 1, chat_id := cid, role := "user", content := qs n,
          created_at := base + 2*n + 1 },
        { id := base + 2*n + 2, chat_id := cid, role := "assistant", content := ans,
          created_at := base + 2*n + 2 } ]

/-!
Theorems. Supporting lemmas come first, then one theorem per claim
(with its witness or counterexample where required).
-/

theorem insertByCreated_of_le (m : Message) (l : List Message)
    (h : ∀ x ∈ l, m.created_at ≤ x.created_at) : insertByCreated m l = m :: l := by
  cases l with
  | nil => rfl
  | cons x xs => simp [insertByCreated, h x (by simp)]

theorem orderByCreated_of_sorted (l : List Message)
    (h : List.Pairwise (fun a b => a.created_at ≤ b.created_at) l) :
    orderByCreated l = l := by
  induction l with
  | nil => rfl
  | cons x xs ih =>
    rw [List.pairwise_cons] at h
    rw [orderByCreated, ih h.2, insertByCreated_of_le x xs h.1]

theorem runOps_of_allOk {α : Type} :
    ∀ (ops : List (Op α)) (s : Session) (acc rs : List α) (s1 : Session),
    allOk ops s = some (rs, s1) →
    runOps ops s acc = (.ok (acc.reverse ++ rs), s1) := by
  intro ops
  induction ops with
  | nil =>
    intro s acc rs s1 h
    simp [allOk] at h
    simp [runOps, h.1, h.2]
  | cons op rest ih =>
    intro s acc rs s1 h
    rcases hop : op s with ⟨r, s2⟩
    cases r with
    | error e => rw [allOk, hop] at h; simp at h
    | ok a =>
      rw [allOk, hop] at h
      simp only [Option.map_eq_some'] at h
      obtain ⟨p, hp, hfp⟩ := h
      have hrec := ih s2 (a :: acc) p.1 p.2 (by rw [hp])
      have h1 : rs = a :: p.1 := by
        have := congrArg Prod.fst hfp; simpa using this.symm
      have h2 : s1 = p.2 := by
        have := congrArg Prod.snd hfp; simpa using this.symm
      simp [runOps, hop, hrec, h1, h2]

theorem runOps_append_fail {α : Type} :
    ∀ (pre : List (Op α)) (s : Session) (acc rs : List α) (s1 : Session)
      (opf : Op α) (rest : List (Op α)) (e : Err) (s2 : Session),
    allOk pre s = some (rs, s1) → opf s1 = (.error e, s2) →
    runOps (pre ++ opf :: rest) s acc = (.error e, s2.rollback) := by
  intro pre
  induction pre with
  | nil =>
    intro s acc rs s1 opf rest e s2 h hf
    simp [allOk] at h
    rw [List.nil_append]
    simp [runOps, h.2, hf]
  | cons op pre1 ih =>
    intro s acc rs s1 opf rest e s2 h hf
    rcases hop : op s with ⟨r, s3⟩
    cases r with
    | error e1 => rw [allOk, hop] at h; simp at h
    | ok a =>
      rw [allOk, hop] at h
      simp only [Option.map_eq_some'] at h
      obtain ⟨p, hp, hfp⟩ := h
      have h2 : s1 = p.2 := by
        have := congrArg Prod.snd hfp; simpa using this.symm
      rw [List.cons_append, runOps, hop]
      exact ih s3 (a :: acc) p.1 p.2 opf rest e s2 (by rw [hp]) (h2 ▸ hf)

theorem roleAlternation_append (n : Nat) :
    roleAlternation n ++ ["user", "assistant"] = roleAlternation (n + 1) := by
  induction n with
  | zero => rfl
  | succ m ih =>
    rw [roleAlternation, List.cons_append, List.cons_append, ih]
    rfl

theorem expectedMsgs_length (cid : Nat) (qs : Nat → String) (ans : String)
    (base : Nat) : ∀ n, (expectedMsgs cid qs ans base n).length = 2 * n := by
  intro n
  induction n with
  | zero => rfl
  | succ m ih => simp [expectedMsgs, ih]; omega

theorem expectedMsgs_roles (cid : Nat) (qs : Nat → String) (ans : String)
    (base : Nat) : ∀ n,
    (expectedMsgs cid qs ans base n).map Message.role = roleAlternation n := by
  intro n
  induction n with
  | zero => rfl
  | succ m ih =>
    rw [expectedMsgs, List.map_append, ih]
    exact roleAlternation_append m

theorem expectedMsgs_chat_id (cid : Nat) (qs : Nat → String) (ans : String)
    (base : Nat) : ∀ n, ∀ m ∈ expectedMsgs cid qs ans base n, m.chat_id = cid := by
  intro n
  induction n with
  | zero => intro m hm; simp [expectedMsgs] at hm
  | succ k ih =>
    intro m hm
    rw [expectedMsgs] at hm
    rcases List.mem_append.mp hm with h | h
    · exact ih m h
    · simp at h; rcases h with h | h <;> simp [h]

theorem expectedMsgs_created_bounds (cid : Nat) (qs : Nat → String) (ans : String)
    (base : Nat) : ∀ n, ∀ m ∈ expectedMsgs cid qs ans base n,
    base < m.created_at ∧ m.created_at ≤ base + 2 * n := by
  intro n
  induction n with
  | zero => intro m hm; simp [expectedMsgs] at hm
  | succ k ih =>
    intro m hm
    rw [expectedMsgs] at hm
    rcases List.mem_append.mp hm with h | h
    · have := ih m h; omega
    · simp at h
      rcases h with h | h <;> (subst h; simp; omega)

theorem expectedMsgs_pairwise (cid : Nat) (qs : Nat → String) (ans : String)
    (base : Nat) : ∀ n, List.Pairwise (fun a b => a.created_at < b.created_at)
      (expectedMsgs cid qs ans base n) := by
  intro n
  induction n with
  | zero => exact List.Pairwise.nil
  | succ k ih =>
    rw [expectedMsgs, List.pairwise_append]
    refine ⟨ih, ?_, ?_⟩
    · simp
    · intro a ha b hb
      have hbound := expectedMsgs_created_bounds cid qs ans base k a ha
      simp at hb
      rcases hb with h | h <;> (subst h; simp; omega)

theorem askRequest_existing (k txt : String) (body : ApiBody) (db : DB)
    (u t q : String) (c : Chat) (hc : db.findChat u t = some c) :
    askRequest { apiKey := some k, net := .response 200 txt body }
        WriteInj.none db u t q =
      (.ok { id := db.tick + 1, chat_id := c.id, role := "assistant",
             content := body.answer.getD "No response", created_at := db.tick + 1 },
       { chats := db.chats,
         msgs := db.msgs ++
           [ { id := db.tick, chat_id := c.id, role := "user", content := q,
               created_at := db.tick },
             { id := db.tick + 1, chat_id := c.id, role := "assistant",
               content := body.answer.getD "No response",
               created_at := db.tick + 1 } ],
         tick := db.tick + 2 }) := by
  unfold askRequest SearchService.process_search_request SearchService.writePhase
    SearchService.writeMsgs MessageRepository.create MessageRepository.get_by_chat
    ChatRepository.get_by_user_and_title YouApiService.get_response
  simp [hc, freshSession, WriteInj.none, Session.begin, Session.working,
    Session.inTransaction, Session.flushWith, Session.commit, DB.insertMessage,
    Nat.add_assoc]

theorem askRequest_fresh (k txt : String) (body : ApiBody) (db : DB)
    (u t q : String) (hc : db.findChat u t = none) :
    askRequest { apiKey := some k, net := .response 200 txt body }
        WriteInj.none db u t q =
      (.ok { id := db.tick + 2, chat_id := db.tick, role := "assistant",
             content := body.answer.getD "No response", created_at := db.tick + 2 },
       { chats := db.chats ++ [chatRowFor db u t],
         msgs := db.msgs ++
           [ { id := db.tick + 1, chat_id := db.tick, role := "user", content := q,
               created_at := db.tick + 1 },
             { id := db.tick + 2, chat_id := db.tick, role := "assistant",
               content := body.answer.getD "No response",
               created_at := db.tick + 2 } ],
         tick := db.tick + 3 }) := by
  unfold askRequest SearchService.process_search_request SearchService.writePhase
    SearchService.writeMsgs MessageRepository.create ChatRepository.create
    MessageRepository.get_by_chat ChatRepository.get_by_user_and_title
    YouApiService.get_response
  simp [hc, freshSession, WriteInj.none, Session.begin, Session.working,
    Session.inTransaction, Session.flushWith, Session.commit, DB.insertMessage,
    DB.insertChat, chatRowFor, Nat.add_assoc]

theorem findChat_pair_row (db : DB) (u t : String) (hfresh : db.findChat u t = none)
    (msgs1 : List Message) (tk : Nat) :
    DB.findChat { chats := db.chats ++ [chatRowFor db u t], msgs := msgs1, tick := tk } u t
      = some (chatRowFor db u t) := by
  unfold DB.findChat at *
  rw [show ({ chats := db.chats ++ [chatRowFor db u t], msgs := msgs1, tick := tk } : DB).chats
      = db.chats ++ [chatRowFor db u t] from rfl]
  rw [List.filter_append, List.head?_eq_none_iff.mp hfresh]
  simp [chatRowFor]

theorem askSeq_closed (k txt : String) (body : ApiBody) (db : DB)
    (u t : String) (qs : Nat → String) (hfresh : db.findChat u t = none) :
    ∀ n, 1 ≤ n →
    askSeq { apiKey := some k, net := .response 200 txt body } u t qs n db =
      { chats := db.chats ++ [chatRowFor db u t],
        msgs := db.msgs ++
          expectedMsgs db.tick qs (body.answer.getD "No response") db.tick n,
        tick := db.tick + 2 * n + 1 } := by
  intro n
  induction n with
  | zero => intro h; omega
  | succ m ih =>
    intro _
    by_cases hm : 1 ≤ m
    · have ihm := ih hm
      rw [askSeq, ihm]
      rw [askRequest_existing k txt body _ u t (qs m) (chatRowFor db u t)
        (findChat_pair_row db u t hfresh _ _)]
      simp [expectedMsgs, chatRowFor, Nat.mul_succ, Nat.add_assoc, List.append_assoc]
    · have hm0 : m = 0 := by omega
      subst hm0
      rw [askSeq, askSeq]
      rw [askRequest_fresh k txt body db u t (qs 0) hfresh]
      simp [expectedMsgs, chatRowFor, Nat.add_assoc]

theorem writePhase_fail (inj : WriteInj) (s : Session) (chatOpt : Option Chat)
    (u t q b : String)
    (h : inj.failUser = true ∨ inj.failAssistant = true ∨
      (inj.failChat = true ∧ chatOpt = none)) :
    ∃ e, SearchService.writePhase inj s chatOpt u t q b =
      (.error e, { committed := s.committed, txn := none }) := by
  obtain ⟨fc, fu, fa⟩ := inj
  simp only at h
  cases chatOpt with
  | some c =>
    cases fu with
    | true =>
      exact ⟨.baseInternal "Error creating Message" 500,
        by simp [SearchService.writePhase, SearchService.writeMsgs,
          MessageRepository.create, Session.begin, Session.working,
          Session.rollback]⟩
    | false =>
      cases fa with
      | true =>
        exact ⟨.baseInternal "Error creating Message" 500,
          by simp [SearchService.writePhase, SearchService.writeMsgs,
            MessageRepository.create, Session.begin, Session.working,
            Session.rollback, Session.inTransaction, Session.flushWith]⟩
      | false => simp at h
  | none =>
    cases fc with
    | true =>
      exact ⟨.baseInternal "Error creating Chat" 500,
        by simp [SearchService.writePhase, ChatRepository.create,
          Session.begin, Session.working, Session.rollback]⟩
    | false =>
      cases fu with
      | true =>
        exact ⟨.baseInternal "Error creating Message" 500,
          by simp [SearchService.writePhase, SearchService.writeMsgs,
            ChatRepository.create, MessageRepository.create, Session.begin,
            Session.working, Session.rollback, Session.inTransaction,
            Session.flushWith]⟩
      | false =>
        cases fa with
        | true =>
          exact ⟨.baseInternal "Error creating Message" 500,
            by simp [SearchService.writePhase, SearchService.writeMsgs,
              ChatRepository.create, MessageRepository.create, Session.begin,
              Session.working, Session.rollback, Session.inTransaction,
              Session.flushWith]⟩
        | false => simp at h

theorem orphanFree_deleteChatCascade (d : DB) (cid : Nat) (h : d.orphanFree) :
    (d.deleteChatCascade cid).orphanFree := by
  intro m hm
  simp only [DB.deleteChatCascade, List.mem_filter, Bool.not_eq_eq_eq_not,
    Bool.not_true, beq_eq_false_iff_ne, ne_eq] at hm
  obtain ⟨c, hc, hcid⟩ := h m hm.1
  refine ⟨c, ?_, hcid⟩
  simp only [DB.deleteChatCascade, List.mem_filter, Bool.not_eq_eq_eq_not,
    Bool.not_true, beq_eq_false_iff_ne, ne_eq]
  exact ⟨hc, by rw [hcid]; exact hm.2⟩

/-- C1: a question-answering call whose write phase fails partway (any of the
    three inserts raising, for example a forced failure on the second Turn
    insert) leaves no partial state: the call raises, the durable store is
    unchanged, so neither the Conversation nor the first Turn is durable, and
    a follow-up lookup of (owner, title) returns exactly what it returned
    before the call. -/
theorem c1_write_phase_failure_no_partial_state (k txt : String) (body : ApiBody)
    (inj : WriteInj) (db : DB) (u t q : String)
    (hinj : inj.failUser = true ∨ inj.failAssistant = true ∨
      (inj.failChat = true ∧ db.findChat u t = none)) :
    ∃ e, askRequest { apiKey := some k, net := .response 200 txt body } inj db u t q
        = (.error e, db) ∧
      (ChatRepository.get_by_user_and_title
        (freshSession (askRequest { apiKey := some k, net := .response 200 txt body }
          inj db u t q).2) u t).1
      = (ChatRepository.get_by_user_and_title (freshSession db) u t).1 := by
  cases hc : db.findChat u t with
  | none =>
    obtain ⟨e, he⟩ := writePhase_fail inj { committed := db, txn := some db } none
      u t q (body.answer.getD "No response") (by
        rcases hinj with h | h | h
        · exact Or.inl h
        · exact Or.inr (Or.inl h)
        · exact Or.inr (Or.inr ⟨h.1, rfl⟩))
    have hmain : askRequest { apiKey := some k, net := .response 200 txt body }
        inj db u t q = (.error (.generic (wrapMsg ++ e.str)), db) := by
      unfold askRequest SearchService.process_search_request
      simp [hc, he, freshSession, Session.begin, Session.working, Session.rollback,
        ChatRepository.get_by_user_and_title, YouApiService.get_response]
    exact ⟨_, hmain, by rw [hmain]⟩
  | some c =>
    have hinj2 : inj.failUser = true ∨ inj.failAssistant = true ∨
        (inj.failChat = true ∧ (some c : Option Chat) = none) := by
      rcases hinj with h | h | h
      · exact Or.inl h
      · exact Or.inr (Or.inl h)
      · rw [hc] at h; exact absurd h.2 (by simp)
    obtain ⟨e, he⟩ := writePhase_fail inj { committed := db, txn := some db } (some c)
      u t q (body.answer.getD "No response") hinj2
    have hmain : askRequest { apiKey := some k, net := .response 200 txt body }
        inj db u t q = (.error (.generic (wrapMsg ++ e.str)), db) := by
      unfold askRequest SearchService.process_search_request
      simp [hc, he, freshSession, Session.begin, Session.working, Session.rollback,
        ChatRepository.get_by_user_and_title, MessageRepository.get_by_chat,
        YouApiService.get_response]
    exact ⟨_, hmain, by rw [hmain]⟩

/-- Witness for C1 at a concrete input: forced failure on the first Turn
    insert over the empty store. -/
theorem c1_witness :
    ∃ e, askRequest { apiKey := some "k", net := .response 200 "ok" { answer := some "A" } }
        { failChat := false, failUser := true, failAssistant := false }
        { chats := [], msgs := [], tick := 0 } "alice" "trip planning" "q"
        = (.error e, { chats := [], msgs := [], tick := 0 }) ∧
      (ChatRepository.get_by_user_and_title
        (freshSession (askRequest
          { apiKey := some "k", net := .response 200 "ok" { answer := some "A" } }
          { failChat := false, failUser := true, failAssistant := false }
          { chats := [], msgs := [], tick := 0 } "alice" "trip planning" "q").2)
        "alice" "trip planning").1
      = (ChatRepository.get_by_user_and_title
          (freshSession { chats := [], msgs := [], tick := 0 })
          "alice" "trip planning").1 :=
  c1_write_phase_failure_no_partial_state "k" "ok" { answer := some "A" }
    { failChat := false, failUser := true, failAssistant := false }
    { chats := [], msgs := [], tick := 0 } "alice" "trip planning" "q"
    (Or.inl rfl)

/-- C2: after N strictly sequential successful question-answering calls on a
    previously unused (owner, title) pair over a well-formed store, reading
    the conversation (lookup, then its messages ordered by created_at)
    returns exactly 2N turns whose roles alternate user, assistant, ... and
    whose created_at values are strictly ascending, so each call contributed
    its user turn before its assistant turn. -/
theorem c2_sequential_calls_transcript (k txt : String) (body : ApiBody)
    (db : DB) (u t : String) (qs : Nat → String) (N : Nat)
    (hwf : db.wf) (hfresh : db.findChat u t = none) (hN : 1 ≤ N) :
    ∃ c, (ChatRepository.get_by_user_and_title
        (freshSession (askSeq { apiKey := some k, net := .response 200 txt body }
          u t qs N db)) u t).1 = some c ∧
      (MessageRepository.get_by_chat
        (freshSession (askSeq { apiKey := some k, net := .response 200 txt body }
          u t qs N db)) c.id).1.length = 2 * N ∧
      (MessageRepository.get_by_chat
        (freshSession (askSeq { apiKey := some k, net := .response 200 txt body }
          u t qs N db)) c.id).1.map Message.role = roleAlternation N ∧
      List.Pairwise (fun a b => a.created_at < b.created_at)
        (MessageRepository.get_by_chat
          (freshSession (askSeq { apiKey := some k, net := .response 200 txt body }
            u t qs N db)) c.id).1 := by
  have hclosed := askSeq_closed k txt body db u t qs hfresh N hN
  have htr : (MessageRepository.get_by_chat
      (freshSession (askSeq { apiKey := some k, net := .response 200 txt body }
        u t qs N db)) (chatRowFor db u t).id).1
      = expectedMsgs db.tick qs (body.answer.getD "No response") db.tick N := by
    rw [hclosed]
    show orderByCreated (List.filter _ (db.msgs ++ expectedMsgs _ _ _ _ _)) = _
    rw [List.filter_append]
    have h1 : db.msgs.filter (fun m => m.chat_id == (chatRowFor db u t).id) = [] := by
      rw [List.filter_eq_nil_iff]
      intro m hm
      have := (hwf.2 m hm).2.1
      simp [chatRowFor]
      omega
    have h2 : (expectedMsgs db.tick qs (body.answer.getD "No response") db.tick
        N).filter (fun m => m.chat_id == (chatRowFor db u t).id)
        = expectedMsgs db.tick qs (body.answer.getD "No response") db.tick N := by
      rw [List.filter_eq_self]
      intro m hm
      simp [chatRowFor, expectedMsgs_chat_id db.tick qs _ db.tick N m hm]
    rw [h1, h2, List.nil_append]
    exact orderByCreated_of_sorted _
      ((expectedMsgs_pairwise db.tick qs _ db.tick N).imp (fun h => Nat.le_of_lt h))
  refine ⟨chatRowFor db u t, ?_, ?_, ?_, ?_⟩
  · show DB.findChat _ u t = _
    rw [hclosed]
    exact findChat_pair_row db u t hfresh _ _
  · rw [htr]; exact expectedMsgs_length _ _ _ _ N
  · rw [htr]; exact expectedMsgs_roles _ _ _ _ N
  · rw [htr]; exact expectedMsgs_pairwise _ _ _ _ N

/-- Witness for C2 at a concrete input: two sequential calls on the empty
    store. -/
theorem c2_witness :
    ∃ c, (ChatRepository.get_by_user_and_title
        (freshSession (askSeq
          { apiKey := some "k", net := .response 200 "ok" { answer := some "A" } }
          "alice" "trip planning" (fun _ => "q") 2
          { chats := [], msgs := [], tick := 0 })) "alice" "trip planning").1
        = some c ∧
      (MessageRepository.get_by_chat
        (freshSession (askSeq
          { apiKey := some "k", net := .response 200 "ok" { answer := some "A" } }
          "alice" "trip planning" (fun _ => "q") 2
          { chats := [], msgs := [], tick := 0 })) c.id).1.length = 2 * 2 ∧
      (MessageRepository.get_by_chat
        (freshSession (askSeq
          { apiKey := some "k", net := .response 200 "ok" { answer := some "A" } }
          "alice" "trip planning" (fun _ => "q") 2
          { chats := [], msgs := [], tick := 0 })) c.id).1.map Message.role
        = roleAlternation 2 ∧
      List.Pairwise (fun a b => a.created_at < b.created_at)
        (MessageRepository.get_by_chat
          (freshSession (askSeq
            { apiKey := some "k", net := .response 200 "ok" { answer := some "A" } }
            "alice" "trip planning" (fun _ => "q") 2
            { chats := [], msgs := [], tick := 0 })) c.id).1 :=
  c2_sequential_calls_transcript "k" "ok" { answer := some "A" }
    { chats := [], msgs := [], tick := 0 } "alice" "trip planning"
    (fun _ => "q") 2 (by decide) rfl (by decide)

/-- C3: the rename operation never reaches the lookup, the update or the
    not-found report: ChatService.update_chat_title passes a session keyword
    argument to ChatRepository.get_by_user_and_title, whose signature has no
    such parameter, so every rename call raises TypeError inside the
    transaction, the transaction rolls back and the store is unchanged. This
    contradicts the claim (and the test suite, which expects rename to
    return the renamed conversation). -/
theorem c3_rename_always_raises_type_error (tm : TransactionManager) (db : DB)
    (u t nt : String) :
    ChatService.update_chat_title (some tm) db u t nt =
      (.error (.typeError kwErrMsg), db) := rfl

/-- C4 counterexample: delete_chat_with_messages invoked on a supplied
    session with no open transaction does not raise; it proceeds and returns
    true, contradicting the claim that it raises. -/
theorem c4_counterexample :
    (freshSession { chats := [], msgs := [], tick := 0 }).inTransaction = false ∧
    (ChatRepository.delete_chat_with_messages
      (freshSession { chats := [], msgs := [], tick := 0 }) true 5 false).1
      = .ok true := ⟨rfl, rfl⟩

/-- C4 amended: invoked outside an active transaction,
    delete_chat_with_messages begins a transaction on the session itself and
    proceeds instead of raising; standalone (no session supplied) it deletes
    messages and chat and commits its own fallback session, and on failure it
    rolls that session back; with a supplied session it never changes the
    durable store itself; in every case the no-orphan invariant of the
    durable store is preserved. -/
theorem c4_amended_no_raise_no_orphans (db : DB) (cid : Nat) (inj : Bool) :
    (freshSession db).inTransaction = false ∧
    (inj = false →
      ChatRepository.delete_chat_with_messages (freshSession db) false cid false =
        (.ok true, freshSession (db.deleteChatCascade cid))) ∧
    (inj = true →
      ChatRepository.delete_chat_with_messages (freshSession db) false cid true =
        (.error (.baseInternal "Error deleting chat and its messages" 500),
         { committed := db, txn := none })) ∧
    (∀ s : Session,
      (ChatRepository.delete_chat_with_messages s true cid inj).2.committed
        = s.committed) ∧
    (db.orphanFree →
      (ChatRepository.delete_chat_with_messages (freshSession db) false cid
        inj).2.committed.orphanFree) := by
  refine ⟨rfl, ?_, ?_, ?_, ?_⟩
  · intro h
    simp [ChatRepository.delete_chat_with_messages, freshSession, Session.begin,
      Session.working, Session.inTransaction, Session.flushWith, Session.commit,
      DB.deleteChatCascade]
  · intro h
    simp [ChatRepository.delete_chat_with_messages, freshSession, Session.begin,
      Session.working, Session.inTransaction, Session.flushWith, Session.rollback]
  · intro s
    obtain ⟨cdb, txo⟩ := s
    cases txo <;> cases inj <;>
      simp [ChatRepository.delete_chat_with_messages, Session.begin,
        Session.working, Session.inTransaction, Session.flushWith]
  · intro h
    cases inj with
    | true =>
      have hcom : (ChatRepository.delete_chat_with_messages (freshSession db) false
          cid true).2.committed = db := by
        simp [ChatRepository.delete_chat_with_messages, freshSession, Session.begin,
          Session.working, Session.inTransaction, Session.flushWith, Session.rollback]
      rw [hcom]; exact h
    | false =>
      have hcom : (ChatRepository.delete_chat_with_messages (freshSession db) false
          cid false).2.committed = db.deleteChatCascade cid := by
        simp [ChatRepository.delete_chat_with_messages, freshSession, Session.begin,
          Session.working, Session.inTransaction, Session.flushWith, Session.commit,
          DB.deleteChatCascade]
      rw [hcom]
      exact orphanFree_deleteChatCascade db cid h

/-- Witness for C4 amended at a concrete input: a store with one chat and one
    message, standalone successful delete. -/
theorem c4_amended_witness :
    ChatRepository.delete_chat_with_messages
      (freshSession { chats := [{ id := 0, user_id := "a", chat_title := "t",
                                  created_at := 0, updated_at := 0 }],
                      msgs := [{ id := 1, chat_id := 0, role := "user",
                                 content := "q", created_at := 1 }],
                      tick := 2 }) false 0 false =
      (.ok true, freshSession (DB.deleteChatCascade
        { chats := [{ id := 0, user_id := "a", chat_title := "t",
                      created_at := 0, updated_at := 0 }],
          msgs := [{ id := 1, chat_id := 0, role := "user",
                     content := "q", created_at := 1 }],
          tick := 2 } 0)) ∧
    (ChatRepository.delete_chat_with_messages
      (freshSession { chats := [{ id := 0, user_id := "a", chat_title := "t",
                                  created_at := 0, updated_at := 0 }],
                      msgs := [{ id := 1, chat_id := 0, role := "user",
                                 content := "q", created_at := 1 }],
                      tick := 2 }) false 0 false).2.committed.orphanFree :=
  ⟨(c4_amended_no_raise_no_orphans
      { chats := [{ id := 0, user_id := "a", chat_title := "t",
                    created_at := 0, updated_at := 0 }],
        msgs := [{ id := 1, chat_id := 0, role := "user",
                   content := "q", created_at := 1 }],
        tick := 2 } 0 false).2.1 rfl,
   (c4_amended_no_raise_no_orphans
      { chats := [{ id := 0, user_id := "a", chat_title := "t",
                    created_at := 0, updated_at := 0 }],
        msgs := [{ id := 1, chat_id := 0, role := "user",
                   content := "q", created_at := 1 }],
        tick := 2 } 0 false).2.2.2.2 (by decide)⟩

/-- C5 counterexample: with no credential configured, the call aborts before
    any write, but what reaches the caller is a plain wrapped Exception, not
    the classified error itself (the HTTPException with status 500). -/
theorem c5_counterexample :
    (askRequest { apiKey := none, net := .response 200 "ok" { answer := some "A" } }
      WriteInj.none { chats := [], msgs := [], tick := 0 } "alice" "trip" "q").1
      = .error (.generic
          "Failed to process search request: 500: YOU_API_KEY environment variable not set") ∧
    (askRequest { apiKey := none, net := .response 200 "ok" { answer := some "A" } }
      WriteInj.none { chats := [], msgs := [], tick := 0 } "alice" "trip" "q").1
      ≠ .error (.httpError 500 "YOU_API_KEY environment variable not set") :=
  ⟨rfl, by decide⟩

/-- C5 amended: when the external answer call fails with its classified error
    (configuration-missing, upstream-error or transport-error), the whole
    operation aborts before any write occurs, the durable store is unchanged,
    and the caller receives a generic Exception whose message wraps the str
    of the classified error, so the cause is distinguishable only by message
    text, not as the classified error itself. -/
theorem c5_amended_api_failure_aborts_wrapped (env : ApiEnv) (inj : WriteInj)
    (db : DB) (u t q : String) (e : Err)
    (h : ∀ ms, YouApiService.get_response env.apiKey env.net ms = .error e) :
    askRequest env inj db u t q = (.error (.generic (wrapMsg ++ e.str)), db) := by
  cases hc : db.findChat u t with
  | none =>
    unfold askRequest SearchService.process_search_request
    simp [hc, h, freshSession, Session.begin, Session.working, Session.rollback,
      ChatRepository.get_by_user_and_title]
  | some c =>
    unfold askRequest SearchService.process_search_request
    simp [hc, h, freshSession, Session.begin, Session.working, Session.rollback,
      ChatRepository.get_by_user_and_title, MessageRepository.get_by_chat]

/-- Witness for C5 amended at a concrete input: YOU_API_KEY unset. -/
theorem c5_amended_witness :
    askRequest { apiKey := none, net := .transportError "down" } WriteInj.none
      { chats := [], msgs := [], tick := 0 } "alice" "trip" "q"
      = (.error (.generic (wrapMsg ++
          (Err.httpError 500 "YOU_API_KEY environment variable not set").str)),
        { chats := [], msgs := [], tick := 0 }) :=
  c5_amended_api_failure_aborts_wrapped
    { apiKey := none, net := .transportError "down" } WriteInj.none
    { chats := [], msgs := [], tick := 0 } "alice" "trip" "q"
    (Err.httpError 500 "YOU_API_KEY environment variable not set")
    (fun _ => rfl)

/-- C6: the transaction coordinator, run over a store: when every operation
    succeeds it returns the ordered list of each operation result and makes
    the final session image durable with the single commit of the
    engine-level context; when some operation raises it rolls back (the
    durable store is unchanged) and re-raises the very same error value. -/
theorem c6_coordinator_contract {α : Type} (db : DB) :
    (∀ (ops : List (Op α)) (rs : List α) (s : Session),
      allOk ops { committed := db, txn := some db } = some (rs, s) →
      TransactionManager.execute_in_transaction db ops = (.ok rs, s.working)) ∧
    (∀ (pre : List (Op α)) (opf : Op α) (rest : List (Op α)) (rs : List α)
       (s s2 : Session) (e : Err),
      allOk pre { committed := db, txn := some db } = some (rs, s) →
      opf s = (.error e, s2) →
      TransactionManager.execute_in_transaction db (pre ++ opf :: rest)
        = (.error e, db)) := by
  constructor
  · intro ops rs s h
    have hr := runOps_of_allOk ops { committed := db, txn := some db } [] rs s h
    unfold TransactionManager.execute_in_transaction
    simp only [hr]
    simp
  · intro pre opf rest rs s s2 e h hf
    have hr := runOps_append_fail pre { committed := db, txn := some db } [] rs s
      opf rest e s2 h hf
    unfold TransactionManager.execute_in_transaction
    simp only [hr]

/-- Witness for C6 at concrete inputs: a one-operation batch that succeeds,
    and a batch whose second operation raises. -/
theorem c6_witness :
    TransactionManager.execute_in_transaction (α := Nat)
      { chats := [], msgs := [], tick := 0 }
      [fun s => (.ok 7, s)]
      = (.ok [7], { chats := [], msgs := [], tick := 0 }) ∧
    TransactionManager.execute_in_transaction (α := Nat)
      { chats := [], msgs := [], tick := 0 }
      ([fun s => (.ok 7, s)] ++ (fun s => (.error (.generic "boom"), s)) :: [])
      = (.error (.generic "boom"), { chats := [], msgs := [], tick := 0 }) :=
  ⟨(c6_coordinator_contract { chats := [], msgs := [], tick := 0 }).1
      [fun s => (.ok 7, s)] [7]
      { committed := { chats := [], msgs := [], tick := 0 },
        txn := some { chats := [], msgs := [], tick := 0 } } rfl,
   (c6_coordinator_contract { chats := [], msgs := [], tick := 0 }).2
      [fun s => (.ok 7, s)] (fun s => (.error (.generic "boom"), s)) [] [7]
      { committed := { chats := [], msgs := [], tick := 0 },
        txn := some { chats := [], msgs := [], tick := 0 } }
      { committed := { chats := [], msgs := [], tick := 0 },
        txn := some { chats := [], msgs := [], tick := 0 } }
      (.generic "boom") rfl rfl⟩

/-- C7: a successful ask-question call on a previously unused (owner, title)
    pair creates exactly one Conversation row for the pair, and a second
    non-concurrent successful call with the same pair succeeds, attaches its
    turns to that same Conversation (the chat id created by the first call)
    and creates no further Conversation row. -/
theorem c7_find_or_create_reuses (k txt : String) (body : ApiBody) (db : DB)
    (u t q1 q2 : String) (hfresh : db.findChat u t = none) :
    (∃ m1, (askRequest { apiKey := some k, net := .response 200 txt body }
        WriteInj.none db u t q1).1 = .ok m1) ∧
    ((askRequest { apiKey := some k, net := .response 200 txt body }
        WriteInj.none db u t q1).2.countChatsFor u t = 1) ∧
    (db.countChatsFor u t = 0) ∧
    (∃ m2, (askRequest { apiKey := some k, net := .response 200 txt body }
        WriteInj.none
        (askRequest { apiKey := some k, net := .response 200 txt body }
          WriteInj.none db u t q1).2 u t q2).1 = .ok m2 ∧
      m2.chat_id = db.tick) ∧
    ((askRequest { apiKey := some k, net := .response 200 txt body }
        WriteInj.none
        (askRequest { apiKey := some k, net := .response 200 txt body }
          WriteInj.none db u t q1).2 u t q2).2.chats
      = (askRequest { apiKey := some k, net := .response 200 txt body }
          WriteInj.none db u t q1).2.chats) := by
  have h1 := askRequest_fresh k txt body db u t q1 hfresh
  have hnil : db.chats.filter (fun c => c.user_id == u && c.chat_title == t) = [] :=
    List.head?_eq_none_iff.mp hfresh
  have hfind : DB.findChat (askRequest
      { apiKey := some k, net := .response 200 txt body }
      WriteInj.none db u t q1).2 u t = some (chatRowFor db u t) := by
    rw [h1]
    exact findChat_pair_row db u t hfresh _ _
  have h2 := askRequest_existing k txt body _ u t q2 _ hfind
  refine ⟨⟨_, by rw [h1]⟩, ?_, ?_, ⟨_, by rw [h2], rfl⟩, by rw [h2, h1]⟩
  · rw [h1]
    unfold DB.countChatsFor
    rw [List.filter_append, hnil]
    simp [chatRowFor]
  · unfold DB.countChatsFor
    rw [hnil]
    rfl

/-- Witness for C7 at a concrete input: two calls on the empty store. -/
theorem c7_witness :
    ((askRequest { apiKey := some "k", net := .response 200 "ok" { answer := some "A" } }
        WriteInj.none { chats := [], msgs := [], tick := 0 }
        "alice" "trip planning" "q1").2.countChatsFor "alice" "trip planning" = 1) ∧
    ((askRequest { apiKey := some "k", net := .response 200 "ok" { answer := some "A" } }
        WriteInj.none
        (askRequest { apiKey := some "k", net := .response 200 "ok" { answer := some "A" } }
          WriteInj.none { chats := [], msgs := [], tick := 0 }
          "alice" "trip planning" "q1").2 "alice" "trip planning" "q2").2.chats
      = (askRequest { apiKey := some "k", net := .response 200 "ok" { answer := some "A" } }
          WriteInj.none { chats := [], msgs := [], tick := 0 }
          "alice" "trip planning" "q1").2.chats) :=
  ⟨(c7_find_or_create_reuses "k" "ok" { answer := some "A" }
      { chats := [], msgs := [], tick := 0 } "alice" "trip planning" "q1" "q2"
      rfl).2.1,
   (c7_find_or_create_reuses "k" "ok" { answer := some "A" }
      { chats := [], msgs := [], tick := 0 } "alice" "trip planning" "q1" "q2"
      rfl).2.2.2.2⟩

/-- C8 counterexample: on a failing insert, BaseRepository.create rolls back
    the caller-supplied in-transaction session itself (the open transaction
    image is discarded) before raising, so the repository does perform a
    rollback on a supplied write context. -/
theorem c8_counterexample :
    ({ committed := { chats := [], msgs := [], tick := 0 },
       txn := some { chats := [], msgs := [], tick := 0 } } : Session).inTransaction
      = true ∧
    (ChatRepository.create
      { committed := { chats := [], msgs := [], tick := 0 },
        txn := some { chats := [], msgs := [], tick := 0 } }
      { user_id := "alice", chat_title := "t" } true).2.txn = none ∧
    (ChatRepository.create
      { committed := { chats := [], msgs := [], tick := 0 },
        txn := some { chats := [], msgs := [], tick := 0 } }
      { user_id := "alice", chat_title := "t" } true).1
      = .error (.baseInternal "Error creating Chat" 500) := ⟨rfl, rfl, rfl⟩

/-- C8 amended: with a caller-supplied in-transaction session the repository
    write operations never commit it (the durable store of the session is
    untouched on every path) and leave the transaction open on success; but
    on an error, create, update and delete do roll the supplied session back
    before raising; delete_chat_with_messages alone neither commits nor rolls
    back a supplied session. -/
theorem c8_amended_commit_rollback_authority (s : Session)
    (h : s.inTransaction = true) (obj : ChatCreate) (mobj : MessageCreate)
    (c : Chat) (nt : String) (id cid : Nat) (inj : Bool) :
    ((ChatRepository.create s obj inj).2.committed = s.committed) ∧
    ((MessageRepository.create s mobj inj).2.committed = s.committed) ∧
    ((ChatRepository.update s c nt inj).2.committed = s.committed) ∧
    ((ChatRepository.delete s id inj).2.committed = s.committed) ∧
    ((ChatRepository.delete_chat_with_messages s true cid inj).2.committed
      = s.committed) ∧
    (inj = false →
      (ChatRepository.create s obj false).2.inTransaction = true ∧
      (MessageRepository.create s mobj false).2.inTransaction = true ∧
      (ChatRepository.update s c nt false).2.inTransaction = true ∧
      (ChatRepository.delete s id false).2.inTransaction = true) ∧
    ((ChatRepository.delete_chat_with_messages s true cid inj).2.inTransaction
      = true) ∧
    (inj = true →
      (ChatRepository.create s obj true).2.txn = none ∧
      (MessageRepository.create s mobj true).2.txn = none ∧
      (ChatRepository.update s c nt true).2.txn = none ∧
      (ChatRepository.delete s id true).2.txn = none) := by
  obtain ⟨cdb, txo⟩ := s
  cases txo with
  | none => simp [Session.inTransaction] at h
  | some d =>
    cases inj <;>
      simp [ChatRepository.create, MessageRepository.create, ChatRepository.update,
        ChatRepository.delete, ChatRepository.delete_chat_with_messages,
        Session.begin, Session.working, Session.inTransaction, Session.flushWith,
        Session.rollback]

/-- Witness for C8 amended at a concrete input: a supplied open transaction
    over the empty store, with and without the failing insert. -/
theorem c8_amended_witness :
    ((ChatRepository.create
      { committed := { chats := [], msgs := [], tick := 0 },
        txn := some { chats := [], msgs := [], tick := 0 } }
      { user_id := "a", chat_title := "t" } true).2.committed
      = ({ committed := { chats := [], msgs := [], tick := 0 },
           txn := some { chats := [], msgs := [], tick := 0 } } : Session).committed) ∧
    ((ChatRepository.create
      { committed := { chats := [], msgs := [], tick := 0 },
        txn := some { chats := [], msgs := [], tick := 0 } }
      { user_id := "a", chat_title := "t" } false).2.inTransaction = true) :=
  ⟨(c8_amended_commit_rollback_authority
      { committed := { chats := [], msgs := [], tick := 0 },
        txn := some { chats := [], msgs := [], tick := 0 } } rfl
      { user_id := "a", chat_title := "t" }
      { chat_id := 0, role := "user", content := "q" }
      { id := 0, user_id := "a", chat_title := "t", created_at := 0, updated_at := 0 }
      "nt" 0 0 true).1,
   ((c8_amended_commit_rollback_authority
      { committed := { chats := [], msgs := [], tick := 0 },
        txn := some { chats := [], msgs := [], tick := 0 } } rfl
      { user_id := "a", chat_title := "t" }
      { chat_id := 0, role := "user", content := "q" }
      { id := 0, user_id := "a", chat_title := "t", created_at := 0, updated_at := 0 }
      "nt" 0 0 false).2.2.2.2.2.1 rfl).1⟩

/-- C9: when the external call succeeds but the body has no answer field,
    the operation does not fail: it persists and returns an assistant Turn
    whose content is the literal string No response. -/
theorem c9_missing_answer_defaults (k txt : String) (db : DB) (u t q : String) :
    ∃ m db1,
      askRequest { apiKey := some k, net := .response 200 txt { answer := none } }
        WriteInj.none db u t q = (.ok m, db1) ∧
      m.role = "assistant" ∧ m.content = "No response" ∧ m ∈ db1.msgs := by
  cases hc : db.findChat u t with
  | some c =>
    exact ⟨_, _, askRequest_existing k txt { answer := none } db u t q c hc,
      rfl, rfl, by simp⟩
  | none =>
    exact ⟨_, _, askRequest_fresh k txt { answer := none } db u t q hc,
      rfl, rfl, by simp⟩

/-- C10: if get_transaction_manager was never called with a non-null engine
    it returns None without raising and constructs nothing; ChatService is
    then constructed with transaction_manager None; a rename call fails at
    the point it invokes execute_in_transaction on None (an AttributeError,
    not a classified error), and so does a delete call once its lookup has
    found the chat. -/
theorem c10_unconfigured_manager_is_none :
    get_transaction_manager none none = (none, none) ∧
    ChatService.init none = none ∧
    (∀ (db : DB) (u t nt : String),
      ChatService.update_chat_title none db u t nt =
        (.error (.attributeNone attrErrMsg), db)) ∧
    (∀ (db : DB) (u t : String) (inj : Bool),
      (ChatRepository.get_by_user_and_title (freshSession db) u t).1.isSome = true →
      ChatService.delete_chat none db u t inj =
        (.error (.attributeNone attrErrMsg), db)) := by
  refine ⟨rfl, rfl, fun db u t nt => rfl, ?_⟩
  intro db u t inj h
  cases hsome : (ChatRepository.get_by_user_and_title (freshSession db) u t).1 with
  | none => rw [hsome] at h; simp at h
  | some c => simp [ChatService.delete_chat, hsome]

/-- Witness for C10 at a concrete input: a store holding the chat the delete
    call looks up. -/
theorem c10_witness :
    ((ChatRepository.get_by_user_and_title
      (freshSession { chats := [{ id := 0, user_id := "a", chat_title := "t",
                                  created_at := 0, updated_at := 0 }],
                      msgs := [], tick := 1 }) "a" "t").1.isSome = true) ∧
    ChatService.delete_chat none
      { chats := [{ id := 0, user_id := "a", chat_title := "t",
                    created_at := 0, updated_at := 0 }],
        msgs := [], tick := 1 } "a" "t" false =
      (.error (.attributeNone attrErrMsg),
       { chats := [{ id := 0, user_id := "a", chat_title := "t",
                     created_at := 0, updated_at := 0 }],
         msgs := [], tick := 1 }) :=
  ⟨by decide,
   c10_unconfigured_manager_is_none.2.2.2
     { chats := [{ id := 0, user_id := "a", chat_title := "t",
                   created_at := 0, updated_at := 0 }],
       msgs := [], tick := 1 } "a" "t" false (by decide)⟩
